import Mathlib

/-!
Verification of the `storage::mbusprot` command/reply adapter
(`storageapi/src/vespa/storageapi/mbusprot/storagecommand.cpp`).

The source file defines two things:
  * the constructor `StorageCommand::StorageCommand(api::StorageCommand::SP cmd)`,
    which move-transfers the shared handle into the member `_cmd` with no
    null check (lines 7-10), and
  * `StorageCommand::makeReply()` (lines 12-17), which runs the owned
    command's reply-factory, narrows the produced reply to
    `api::BucketInfoReply` by a reference `dynamic_cast` (which throws
    `std::bad_cast` when the reply is of another kind), overwrites its
    bucket-state summary with the sentinel `api::BucketInfo(1,1,1)`, and
    wraps the reply in a freshly allocated `mbusprot::StorageReply`.

The storage-domain classes (`api::StorageCommand`, `api::StorageReply`,
`api::BucketInfoReply`, `api::BucketInfo`) and the `mbusprot::StorageReply`
wrapper live elsewhere in the repository; where their behaviour matters it
is modelled from the specification, and each such definition says so in its
doc comment.  Object identity (freshness of allocations) is made explicit
by threading an allocation counter and stamping every allocated object with
an id, so that non-aliasing is a provable statement.
-/

/-- api::BucketInfo: a bucket-state summary of three numeric fields,
treated as an opaque triple. -/
structure BucketInfo where
  checksum : Nat
  docCount : Nat
  totDocSize : Nat
deriving DecidableEq, Repr

/-- Modelled from the spec: the data carried by an `api::StorageReply`.
A reply either is of the bucket-info-capable kind (`api::BucketInfoReply`,
holding a bucket-state summary next to its other fields) or of some other
kind.  Fields other than the summary are collapsed into one opaque value.
The `api` reply classes are not under src/. -/
inductive ApiStorageReply where
  | bucketInfoReply (info : BucketInfo) (otherFields : Nat)
  | otherReply (otherFields : Nat)
deriving DecidableEq, Repr

/-- Whether the reply supports the `api::BucketInfoReply` capability, i.e.
whether the reference `dynamic_cast` in `makeReply` succeeds on it. -/
def ApiStorageReply.isBucketInfoCapable : ApiStorageReply → Bool
  | .bucketInfoReply _ _ => true
  | .otherReply _ => false

/-- Modelled from the spec: `api::BucketInfoReply::setBucketInfo` —
overwrite the bucket-state summary, leaving every other field unchanged.
It is only ever reached through a successful narrowing; on a
non-bucket-info reply it is a no-op placeholder (never invoked). -/
def ApiStorageReply.setBucketInfo : ApiStorageReply → BucketInfo → ApiStorageReply
  | .bucketInfoReply _ other, bi => .bucketInfoReply bi other
  | .otherReply other, _ => .otherReply other

/-- Modelled from the spec: `api::StorageCommand` — an opaque storage-domain
command that owns the ability to manufacture its matching reply (its
"reply-factory").  The factory either yields the data of the reply or
fails with an error of type `ε` (the delegated-failure path); which of the
two happens is fixed by the command.  The `api` command classes are not
under src/. -/
structure ApiStorageCommand (ε : Type) where
  replyData : Except ε ApiStorageReply

/-- A heap-allocated `api::StorageReply` object: its reply data stamped
with the id of its allocation, so aliasing is observable in the model. -/
structure ReplyObj where
  oid : Nat
  data : ApiStorageReply
deriving DecidableEq, Repr

/-- The allocation state: the next fresh object id. -/
structure AllocState where
  nextId : Nat
deriving DecidableEq, Repr

/-- Modelled from the spec: running the owned command's reply-factory.
Each call produces a fresh `api::StorageReply` object (a new allocation,
never aliasing an earlier one) carrying the command's reply data, or fails
with the command's own error, in which case nothing is allocated. -/
def runReplyFactory {ε : Type} (cmd : ApiStorageCommand ε) (s : AllocState) :
    Except ε ReplyObj × AllocState :=
  match cmd.replyData with
  | .error e => (.error e, s)
  | .ok d => (.ok ⟨s.nextId, d⟩, ⟨s.nextId + 1⟩)

/-- `mbusprot::StorageCommand` (the CommandEnvelope): wraps a storage
command handle as a bus message.  The member `_cmd` is a shared handle
(`api::StorageCommand::SP`), which the type system allows to be null, so
it is modelled as an `Option`. -/
structure StorageCommand (ε : Type) where
  _cmd : Option (ApiStorageCommand ε)

/-- The constructor `StorageCommand::StorageCommand` (src lines 7-10):
move-transfer whatever handle is given into `_cmd`.  The source performs
no null check and has no failure path. -/
def mkStorageCommand {ε : Type} (cmd : Option (ApiStorageCommand ε)) :
    StorageCommand ε :=
  { _cmd := cmd }

/-- `mbusprot::StorageReply` (the ReplyEnvelope): a pure wrapper exclusively
owning one `api::StorageReply` object.  Its own allocation id `eid` records
the `std::make_unique` in `makeReply`.  Modelled from the spec for the
wrapper itself (its translation unit is not under src/): construction is
unconditional ownership transfer, and unwrapping exposes the owned reply
unchanged. -/
structure StorageReply where
  eid : Nat
  _reply : ReplyObj
deriving DecidableEq, Repr

/-- Modelled from the spec: constructing a `mbusprot::StorageReply` around
a reply object — pure ownership transfer, no mutation. -/
def mkStorageReply (eid : Nat) (reply : ReplyObj) : StorageReply :=
  { eid := eid, _reply := reply }

/-- Modelled from the spec: the ReplyEnvelope's unwrap operation — expose
the owned reply to the transport layer, with no mutation. -/
def StorageReply.getReply (r : StorageReply) : ReplyObj :=
  r._reply

/-- The faults `makeReply` can surface: dereferencing a null `_cmd`
handle, the `std::bad_cast` thrown by the failed reference `dynamic_cast`,
and a failure raised by the command's own reply-factory, carried through
untouched. -/
inductive Fault (ε : Type) where
  | nullDeref
  | badCast
  | delegated (e : ε)
deriving DecidableEq, Repr

/-- `StorageCommand::makeReply` (src lines 12-17), the augmenting variant
as written in the source:

  auto reply = _cmd->makeReply();
  dynamic_cast<api::BucketInfoReply &>(*reply).setBucketInfo(api::BucketInfo(1,1,1));
  return std::make_unique<StorageReply>(std::move(reply));

Dereferencing a null `_cmd` faults; a factory failure propagates
uncaught; a reply that is not bucket-info-capable makes the reference
`dynamic_cast` throw `std::bad_cast` before anything is wrapped.  The
envelope itself is returned alongside the result and the allocation state
to make explicit that nothing in the body writes to it. -/
def StorageCommand.makeReply {ε : Type} (env : StorageCommand ε) (s : AllocState) :
    Except (Fault ε) StorageReply × AllocState × StorageCommand ε :=
  match env._cmd with
  | none => (.error .nullDeref, s, env)
  | some cmd =>
    match runReplyFactory cmd s with
    | (.error e, s1) => (.error (.delegated e), s1, env)
    | (.ok reply, s1) =>
      if reply.data.isBucketInfoCapable then
        let reply1 : ReplyObj := { reply with data := reply.data.setBucketInfo ⟨1, 1, 1⟩ }
        (.ok (mkStorageReply s1.nextId reply1), ⟨s1.nextId + 1⟩, env)
      else
        (.error .badCast, s1, env)

/-- Modelled from the spec: the pass-through variant of the
reply-construction operation (spec §4.1, variant (b)) — wrap whatever
reply the factory produced, with no mutation.  The fragment's second,
pass-through definition of the operation is not under src/; only the
augmenting one is. -/
def StorageCommand.makeReplyPassThrough {ε : Type} (env : StorageCommand ε)
    (s : AllocState) :
    Except (Fault ε) StorageReply × AllocState × StorageCommand ε :=
  match env._cmd with
  | none => (.error .nullDeref, s, env)
  | some cmd =>
    match runReplyFactory cmd s with
    | (.error e, s1) => (.error (.delegated e), s1, env)
    | (.ok reply, s1) => (.ok (mkStorageReply s1.nextId reply), ⟨s1.nextId + 1⟩, env)

/-- Iterate `makeReply` a number of times, discarding the produced replies
and keeping the envelope and allocation state; used to state that any
number of calls leaves the envelope as constructed. -/
def iterMakeReply {ε : Type} (env : StorageCommand ε) (s : AllocState) :
    Nat → StorageCommand ε × AllocState
  | 0 => (env, s)
  | n + 1 =>
    let r := env.makeReply s
    iterMakeReply r.2.2 r.2.1 n

/-- Helper: a single `makeReply` call returns the envelope unchanged, on
every path (null handle, factory failure, failed cast, success). -/
theorem makeReply_env_eq {ε : Type} (env : StorageCommand ε) (s : AllocState) :
    (env.makeReply s).2.2 = env := by
  unfold StorageCommand.makeReply
  split
  · rfl
  · split
    · rfl
    · split <;> rfl

/-- Helper: any number of `makeReply` calls leaves the envelope exactly as
it was; proved by induction from the single-call lemma. -/
theorem iterMakeReply_env_eq {ε : Type} (env : StorageCommand ε) (s : AllocState)
    (n : Nat) : (iterMakeReply env s n).1 = env := by
  induction n generalizing env s with
  | zero => rfl
  | succ n ih =>
    simp only [iterMakeReply]
    rw [ih, makeReply_env_eq]

/-- C1: for a non-null command whose reply-factory yields a
bucket-info-capable reply, one call to the augmenting makeReply returns a
ReplyEnvelope whose unwrapped reply is exactly the factory's reply with
its bucket-state summary overwritten to the sentinel BucketInfo(1,1,1). -/
theorem c1_makeReply_augmenting {ε : Type} (cmd : ApiStorageCommand ε)
    (r : ApiStorageReply) (s : AllocState)
    (hr : cmd.replyData = .ok r) (hcap : r.isBucketInfoCapable = true) :
    ((mkStorageCommand (some cmd)).makeReply s).1 =
      .ok (mkStorageReply (s.nextId + 1) ⟨s.nextId, r.setBucketInfo ⟨1, 1, 1⟩⟩) := by
  simp [mkStorageCommand, StorageCommand.makeReply, runReplyFactory, hr, hcap,
    mkStorageReply]

/-- Witness for C1: a command whose factory yields a bucket-info reply
with summary (0,0,0) and other fields 5, from allocation state 0. -/
theorem c1_makeReply_augmenting_witness :
    ((mkStorageCommand (ε := Nat)
        (some ⟨.ok (.bucketInfoReply ⟨0, 0, 0⟩ 5)⟩)).makeReply ⟨0⟩).1 =
      .ok (mkStorageReply 1 ⟨0, .bucketInfoReply ⟨1, 1, 1⟩ 5⟩) :=
  c1_makeReply_augmenting ⟨.ok (.bucketInfoReply ⟨0, 0, 0⟩ 5)⟩
    (.bucketInfoReply ⟨0, 0, 0⟩ 5) ⟨0⟩ rfl rfl

/-- C2 counterexample: constructing the envelope around the null handle is
neither rejected nor statically impossible — the constructor silently
accepts it and the envelope ends up holding the null handle. -/
theorem c2_null_silently_accepted :
    (mkStorageCommand (ε := Nat) none)._cmd = none := rfl

/-- C2 amended: construction stores whatever handle it is given with no
null check, the null handle included; the null surfaces as a fault only
when makeReply dereferences it. -/
theorem c2_null_accepted_faults_in_makeReply (s : AllocState) :
    (mkStorageCommand (ε := Nat) none)._cmd = none ∧
    ((mkStorageCommand (ε := Nat) none).makeReply s).1 = .error .nullDeref :=
  ⟨rfl, rfl⟩

/-- C3: when the reply-factory yields a reply that is not
bucket-info-capable, the augmenting makeReply fails loudly with the
std::bad_cast fault of the failed reference dynamic_cast; it does not
return a ReplyEnvelope as if it had succeeded. -/
theorem c3_badCast_on_noncapable {ε : Type} (cmd : ApiStorageCommand ε)
    (r : ApiStorageReply) (s : AllocState)
    (hr : cmd.replyData = .ok r) (hcap : r.isBucketInfoCapable = false) :
    ((mkStorageCommand (some cmd)).makeReply s).1 = .error .badCast := by
  simp [mkStorageCommand, StorageCommand.makeReply, runReplyFactory, hr, hcap]

/-- Witness for C3: a command whose factory yields a non-bucket-info
reply. -/
theorem c3_badCast_on_noncapable_witness :
    ((mkStorageCommand (ε := Nat)
        (some ⟨.ok (.otherReply 7)⟩)).makeReply ⟨0⟩).1 = .error .badCast :=
  c3_badCast_on_noncapable ⟨.ok (.otherReply 7)⟩ (.otherReply 7) ⟨0⟩ rfl rfl

/-- C4: when the factory yields a bucket-info-capable reply with summary
(0,0,0), the augmenting makeReply returns a ReplyEnvelope whose unwrapped
reply has summary exactly (1,1,1) with every other field unchanged. -/
theorem c4_sentinel_overwrites_only_summary {ε : Type} (cmd : ApiStorageCommand ε)
    (o : Nat) (s : AllocState)
    (hr : cmd.replyData = .ok (.bucketInfoReply ⟨0, 0, 0⟩ o)) :
    ∃ out : StorageReply,
      ((mkStorageCommand (some cmd)).makeReply s).1 = .ok out ∧
      out.getReply.data = .bucketInfoReply ⟨1, 1, 1⟩ o := by
  refine ⟨mkStorageReply (s.nextId + 1) ⟨s.nextId, .bucketInfoReply ⟨1, 1, 1⟩ o⟩, ?_, rfl⟩
  simp [mkStorageCommand, StorageCommand.makeReply, runReplyFactory, hr,
    ApiStorageReply.isBucketInfoCapable, ApiStorageReply.setBucketInfo, mkStorageReply]

/-- Witness for C4: other fields 9, summary (0,0,0), allocation state 0. -/
theorem c4_sentinel_overwrites_only_summary_witness :
    ∃ out : StorageReply,
      ((mkStorageCommand (ε := Nat)
          (some ⟨.ok (.bucketInfoReply ⟨0, 0, 0⟩ 9)⟩)).makeReply ⟨0⟩).1 = .ok out ∧
      out.getReply.data = .bucketInfoReply ⟨1, 1, 1⟩ 9 :=
  c4_sentinel_overwrites_only_summary ⟨.ok (.bucketInfoReply ⟨0, 0, 0⟩ 9)⟩ 9 ⟨0⟩ rfl

/-- C5: the pass-through variant wraps whatever reply the factory
produced with no mutation: the unwrapped reply data is identical to what
the factory returned, for replies of every kind. -/
theorem c5_passThrough_no_mutation {ε : Type} (cmd : ApiStorageCommand ε)
    (r : ApiStorageReply) (s : AllocState) (hr : cmd.replyData = .ok r) :
    ∃ out : StorageReply,
      ((mkStorageCommand (some cmd)).makeReplyPassThrough s).1 = .ok out ∧
      out.getReply.data = r := by
  refine ⟨mkStorageReply (s.nextId + 1) ⟨s.nextId, r⟩, ?_, rfl⟩
  simp [mkStorageCommand, StorageCommand.makeReplyPassThrough, runReplyFactory, hr,
    mkStorageReply]

/-- Witness for C5: a reply of a non-bucket-info kind passes through
bit-for-bit. -/
theorem c5_passThrough_no_mutation_witness :
    ∃ out : StorageReply,
      ((mkStorageCommand (ε := Nat)
          (some ⟨.ok (.otherReply 11)⟩)).makeReplyPassThrough ⟨0⟩).1 = .ok out ∧
      out.getReply.data = .otherReply 11 :=
  c5_passThrough_no_mutation ⟨.ok (.otherReply 11)⟩ (.otherReply 11) ⟨0⟩ rfl

/-- C6 counterexample: an envelope constructed around the null handle
holds no non-null command at all, so the invariant "always holds exactly
one non-null StorageCommand from construction on" fails at that input. -/
theorem c6_null_envelope_holds_no_command :
    ¬ ∃ c : ApiStorageCommand Nat, (mkStorageCommand (ε := Nat) none)._cmd = some c := by
  rintro ⟨c, h⟩
  simp [mkStorageCommand] at h

/-- C6 amended: an envelope constructed around a non-null command holds
exactly that non-null command, and no number of makeReply calls removes,
replaces, or nullifies it. -/
theorem c6_nonnull_command_preserved {ε : Type} (cmd : ApiStorageCommand ε)
    (s : AllocState) (n : Nat) :
    (iterMakeReply (mkStorageCommand (some cmd)) s n).1._cmd = some cmd := by
  rw [iterMakeReply_env_eq]
  rfl

/-- C7: two consecutive makeReply calls on the same envelope produce two
ReplyEnvelope objects with distinct identities, owning reply objects with
distinct identities — fresh allocations, no aliasing between the calls. -/
theorem c7_fresh_no_aliasing {ε : Type} (cmd : ApiStorageCommand ε)
    (r : ApiStorageReply) (s : AllocState)
    (hr : cmd.replyData = .ok r) (hcap : r.isBucketInfoCapable = true) :
    ∃ out1 out2 : StorageReply,
      ((mkStorageCommand (some cmd)).makeReply s).1 = .ok out1 ∧
      (((mkStorageCommand (some cmd)).makeReply s).2.2.makeReply
          ((mkStorageCommand (some cmd)).makeReply s).2.1).1 = .ok out2 ∧
      out1.eid ≠ out2.eid ∧ out1.getReply.oid ≠ out2.getReply.oid := by
  refine ⟨mkStorageReply (s.nextId + 1) ⟨s.nextId, r.setBucketInfo ⟨1, 1, 1⟩⟩,
    mkStorageReply (s.nextId + 1 + 1 + 1) ⟨s.nextId + 1 + 1, r.setBucketInfo ⟨1, 1, 1⟩⟩,
    ?_, ?_, ?_, ?_⟩
  · simp [mkStorageCommand, StorageCommand.makeReply, runReplyFactory, hr, hcap,
      mkStorageReply]
  · simp [mkStorageCommand, StorageCommand.makeReply, runReplyFactory, hr, hcap,
      mkStorageReply]
  · simp only [mkStorageReply]
    omega
  · simp only [mkStorageReply, StorageReply.getReply]
    omega

/-- Witness for C7: two calls from allocation state 0 give envelope ids 1
and 3 owning reply objects 0 and 2. -/
theorem c7_fresh_no_aliasing_witness :
    ∃ out1 out2 : StorageReply,
      ((mkStorageCommand (ε := Nat)
          (some ⟨.ok (.bucketInfoReply ⟨0, 0, 0⟩ 5)⟩)).makeReply ⟨0⟩).1 = .ok out1 ∧
      (((mkStorageCommand (ε := Nat)
          (some ⟨.ok (.bucketInfoReply ⟨0, 0, 0⟩ 5)⟩)).makeReply ⟨0⟩).2.2.makeReply
          ((mkStorageCommand (ε := Nat)
            (some ⟨.ok (.bucketInfoReply ⟨0, 0, 0⟩ 5)⟩)).makeReply ⟨0⟩).2.1).1 = .ok out2 ∧
      out1.eid ≠ out2.eid ∧ out1.getReply.oid ≠ out2.getReply.oid :=
  c7_fresh_no_aliasing ⟨.ok (.bucketInfoReply ⟨0, 0, 0⟩ 5)⟩
    (.bucketInfoReply ⟨0, 0, 0⟩ 5) ⟨0⟩ rfl rfl

/-- C8: a failure of the owned command's reply-factory is neither caught
nor reinterpreted by makeReply: the very same error value reaches the
caller, carried on the delegated-failure path. -/
theorem c8_delegated_failure_propagates {ε : Type} (cmd : ApiStorageCommand ε)
    (e : ε) (s : AllocState) (he : cmd.replyData = .error e) :
    ((mkStorageCommand (some cmd)).makeReply s).1 = .error (.delegated e) := by
  simp [mkStorageCommand, StorageCommand.makeReply, runReplyFactory, he]

/-- Witness for C8: a factory failing with error 42 propagates error 42. -/
theorem c8_delegated_failure_propagates_witness :
    ((mkStorageCommand (ε := Nat) (some ⟨.error 42⟩)).makeReply ⟨0⟩).1 =
      .error (.delegated 42) :=
  c8_delegated_failure_propagates ⟨.error 42⟩ 42 ⟨0⟩ rfl

/-- C9: this core never mutates the wrapped command: after any number of
makeReply calls the envelope — and so the command handle it holds — is
exactly what construction produced. -/
theorem c9_command_never_mutated {ε : Type} (env : StorageCommand ε)
    (s : AllocState) (n : Nat) :
    (iterMakeReply env s n).1 = env ∧ (iterMakeReply env s n).1._cmd = env._cmd := by
  have h := iterMakeReply_env_eq env s n
  exact ⟨h, by rw [h]⟩

/-- C10: when the narrowing step fails, makeReply is atomic with respect
to the envelope: no ReplyEnvelope is handed out, and the envelope is
exactly as it was before the call. -/
theorem c10_atomic_on_badCast {ε : Type} (cmd : ApiStorageCommand ε)
    (r : ApiStorageReply) (s : AllocState)
    (hr : cmd.replyData = .ok r) (hcap : r.isBucketInfoCapable = false) :
    (∀ out : StorageReply, ((mkStorageCommand (some cmd)).makeReply s).1 ≠ .ok out) ∧
    ((mkStorageCommand (some cmd)).makeReply s).2.2 = mkStorageCommand (some cmd) := by
  constructor
  · intro out hout
    simp [mkStorageCommand, StorageCommand.makeReply, runReplyFactory, hr, hcap] at hout
  · exact makeReply_env_eq _ _

/-- Witness for C10: the failed narrowing on a non-bucket-info reply
yields no ReplyEnvelope and leaves the envelope as constructed. -/
theorem c10_atomic_on_badCast_witness :
    (∀ out : StorageReply,
      ((mkStorageCommand (ε := Nat) (some ⟨.ok (.otherReply 3)⟩)).makeReply ⟨0⟩).1 ≠
        .ok out) ∧
    ((mkStorageCommand (ε := Nat) (some ⟨.ok (.otherReply 3)⟩)).makeReply ⟨0⟩).2.2 =
      mkStorageCommand (ε := Nat) (some ⟨.ok (.otherReply 3)⟩) :=
  c10_atomic_on_badCast ⟨.ok (.otherReply 3)⟩ (.otherReply 3) ⟨0⟩ rfl rfl
